import Mathlib

/-!
Shallow embedding of the gochatbot dispatcher (src/bot/bot.go), its message
value object (src/unnamed/part_000) and the Slack transport provider
(src/providers/slack.go), with theorems settling the specification claims.
Channels are modelled by argument and result lists; external I/O (HTTP calls,
websocket reads and writes) is modelled by explicit wire-outcome arguments.
-/

set_option maxHeartbeats 1000000
set_option linter.dupNamespace false

namespace Gochatbot

/-- Modelled from the spec: the Message value object. The declaration in
src/unnamed/part_000 is truncated after the fields Room, FromUserID,
FromUserName and Message; the fields ToUserID, ToUserName and Direct are
missing from that file but are set and read by the callers in src/bot/bot.go
and src/providers/slack.go, and are given by the spec data model (room,
fromUserID, fromUserName, toUserID, toUserName, text, direct). -/
structure Message where
  Room : String
  FromUserID : String
  FromUserName : String
  ToUserID : String
  ToUserName : String
  Message : String
  Direct : Bool
  deriving Repr, DecidableEq

/-- Modelled from the spec: the Memory collaborator (brain.Memorizer), a
namespaced key/value byte store with read and save, external to the core; its
implementation is not under src/, so it is modelled as the association list of
its entries. -/
structure Memorizer where
  entries : List (String × String × List UInt8)
  deriving Repr, DecidableEq

/-- SelfData is the dispatcher state visible to a rule callback: Go passes a
by-value copy of Self to HelpMessage and ParseMessage. The rule slice itself
cannot occur inside RuleParser in the embedding (strict positivity), and no
claim has a rule consult it, so the copy carries the remaining fields. -/
structure SelfData where
  name : String
  brain : Memorizer

/-- RuleOutcome is the result of one ParseMessage invocation: a normal return
of a slice of responses, or a Go panic raised during evaluation. -/
inductive RuleOutcome where
  | responses (msgs : List Message)
  | panics
  deriving Repr, DecidableEq

/-- toList is the response slice carried by a normal RuleOutcome, empty for a
panic. -/
def RuleOutcome.toList : RuleOutcome → List Message
  | .responses rs => rs
  | .panics => []

/-- RuleParser is the bot.RuleParser interface: ParseMessage produces outbound
messages from one inbound message plus the bot identity, HelpMessage produces
the rule's help text. -/
structure RuleParser where
  ParseMessage : SelfData → Message → RuleOutcome
  HelpMessage : SelfData → String

/-- Self encapsulates the robot state (src/bot/bot.go): identity name, the
ordered rule slice, and the brain. The providerIn and providerOut channels are
modelled by the argument and result lists of the processing functions. -/
structure Self where
  name : String
  rules : List RuleParser
  brain : Memorizer

/-- data is the by-value view of Self handed to rule callbacks. -/
def Self.data (s : Self) : SelfData :=
  ⟨s.name, s.brain⟩

/-- Name returns the robot's name (src/bot/bot.go). -/
def Self.Name (s : Self) : String :=
  s.name

/-- startsWithGo is strings.HasPrefix(s, pre): true when pre is a prefix of
s. -/
def startsWithGo (s pre : String) : Bool :=
  pre.data.isPrefixOf s.data

/-- Sprintln1 is fmt.Sprintln with one operand: the operand with a newline
appended. -/
def Sprintln1 (a : String) : String :=
  a ++ "\n"

/-- Sprintln2 is fmt.Sprintln with two operands: spaces are added between
operands and a newline is appended. -/
def Sprintln2 (a b : String) : String :=
  a ++ " " ++ b ++ "\n"

/-- helpText is the string built by the help branch of Self.Process: starting
from Sprintln("available commands:"), each rule of s.rules folds in through
helpMsg = Sprintln(helpMsg, rule.HelpMessage(self)). -/
def helpText (s : Self) : String :=
  s.rules.foldl (fun acc rule => Sprintln2 acc (rule.HelpMessage s.data))
    (Sprintln1 ("available commands:"))

/-- runRules is the rule-evaluation goroutine body of Self.Process: rules run
in registration order, each returned response is forwarded in order to
providerOut; a panic is recovered (and logged) at the goroutine boundary and
ends the goroutine, so the remaining rules contribute nothing. The Bool
records whether a panic was recovered. -/
def runRules (d : SelfData) (msg : Message) : List RuleParser → List Message × Bool
  | [] => ([], false)
  | rule :: rest =>
    match rule.ParseMessage d msg with
    | .responses rs =>
      let t := runRules d msg rest
      (rs ++ t.1, t.2)
    | .panics => ([], true)

/-- Process1 is the per-inbound-message behaviour of Self.Process: the help
branch when the text starts with "<name> help" (one message addressed back to
the sender, rule evaluation bypassed), the rule-evaluation branch otherwise.
The list collects the messages sent to providerOut for this inbound message;
the Bool records a recovered panic. -/
def Process1 (s : Self) (inMsg : Message) : List Message × Bool :=
  if startsWithGo inMsg.Message (s.Name ++ " help") then
    ([⟨inMsg.Room, "", "", inMsg.FromUserID, inMsg.FromUserName, helpText s, false⟩], false)
  else
    runRules s.data inMsg s.rules

/-- processLoop is the main receive loop of Self.Process: each message taken
from providerIn is handled in its own goroutine; the results are collected per
inbound message (the interleaving across messages is not fixed by the code and
is not modelled). -/
def processLoop (s : Self) (ins : List Message) : List (List Message × Bool) :=
  ins.map (fun m => Process1 s m)

/-- Process1State is Process1 with the dispatcher state threaded explicitly:
the goroutine bodies of Self.Process read s.rules and send on s.providerOut
but never assign to any field of s or of the by-value copy self, so the
dispatcher state after the task equals the state before it. -/
def Process1State (s : Self) (inMsg : Message) : Self × (List Message × Bool) :=
  (s, Process1 s inMsg)

/-- ProcessState models the package-level guard of Self.Process (the variable
processOnce of type sync.Once in src/bot/bot.go): onceDone says whether
processOnce.Do has ever run its body in this process; started collects the
identities of the instances whose main loop was started. -/
structure ProcessState where
  onceDone : Bool
  started : List Nat
  deriving Repr, DecidableEq

/-- ProcessCall models one call to Process by the instance with identity inst:
sync.Once runs the body only if no call has run it before, anywhere in the
process; the body started by the winning call is the loop of that instance. -/
def ProcessCall (st : ProcessState) (inst : Nat) : ProcessState :=
  if st.onceDone then st else ⟨true, inst :: st.started⟩

/-- OkField is the decoded "ok" field of a Slack HTTP response: the field is
decoded into an empty-interface value, which holds either a bool or some other
JSON value. -/
inductive OkField where
  | boolVal (b : Bool)
  | nonBool
  deriving Repr, DecidableEq

/-- HandshakeWire is the outcome, as observed by providerSlack.handshake, of
the rtm.start HTTP call: a transport error returned by http.Get, a JSON decode
error on the body, or a decoded body carrying the ok field, the session url
and self.id. -/
inductive HandshakeWire where
  | httpErr (e : String)
  | decodeErr (e : String)
  | decoded (ok : OkField) (url : String) (selfID : String)
  deriving Repr, DecidableEq

/-- SlackState is the mutable state of providerSlack relevant to the claims:
err (the sticky lastError, none meaning nil), wsURL and selfID from the
handshake, wsConn (the socket handle, none when absent, an abstract handle
identifier otherwise) and the usernames cache. -/
structure SlackState where
  err : Option String
  wsURL : String
  selfID : String
  wsConn : Option Nat
  usernames : List (String × String)
  deriving Repr, DecidableEq

/-- handshake is providerSlack.handshake as a state transformer over the wire
outcome. On the false-bool and non-bool branches of the switch the source
assigns p.err = err, where err is the variable bound by http.Get: the decode
error is shadowed inside its if statement, and the http.Get error is
necessarily nil on those paths (its non-nil branch has already returned), so
p.err is assigned nil (none) there. -/
def handshake (p : SlackState) (wire : HandshakeWire) : SlackState :=
  match wire with
  | .httpErr e => ⟨some e, p.wsURL, p.selfID, p.wsConn, p.usernames⟩
  | .decodeErr e => ⟨some e, p.wsURL, p.selfID, p.wsConn, p.usernames⟩
  | .decoded ok url sid =>
    match ok with
    | .boolVal true => ⟨p.err, url, sid, p.wsConn, p.usernames⟩
    | .boolVal false => ⟨none, p.wsURL, p.selfID, p.wsConn, p.usernames⟩
    | .nonBool => ⟨none, p.wsURL, p.selfID, p.wsConn, p.usernames⟩

/-- DialWire is the outcome of the websocket.Dial call. -/
inductive DialWire where
  | ok (conn : Nat)
  | fail (e : String)
  deriving Repr, DecidableEq

/-- dialNoURLError is the error message built by providerSlack.dial when wsURL
is empty; the %v verb renders a nil error as the text between angle brackets
used by the fmt package. -/
def dialNoURLError (p : SlackState) : String :=
  "could not connnect to Slack HTTP WS rtm. please, check your connection and your token (GOCHATBOT_SLACK_TOKEN). error: " ++ (p.err.getD ("<nil>"))

/-- dial is providerSlack.dial as a state transformer over the outcome of the
websocket.Dial call (unused when wsURL is empty, since the call is never
made). -/
def dial (p : SlackState) (wire : DialWire) : SlackState :=
  if p.wsURL = "" then
    ⟨some (dialNoURLError p), p.wsURL, p.selfID, p.wsConn, p.usernames⟩
  else
    match wire with
    | .fail e => ⟨some e, p.wsURL, p.selfID, p.wsConn, p.usernames⟩
    | .ok c => ⟨p.err, p.wsURL, p.selfID, some c, p.usernames⟩

/-- ReconnectAction describes one tick of providerSlack.reconnect after its
one-second sleep: stops (break, when the snapshotted handle is nil), keeps
(the liveness write succeeded), or heals (the liveness write failed, so
handshake() and then dial() are re-run). -/
inductive ReconnectAction where
  | stops
  | keeps
  | heals
  deriving Repr, DecidableEq

/-- reconnectTick is the decision taken by one tick of the reconnect
supervisor from the snapshotted handle and the result of the liveness
write. -/
def reconnectTick (p : SlackState) (writeFails : Bool) : ReconnectAction :=
  match p.wsConn with
  | none => .stops
  | some _ => if writeFails then .heals else .keeps

/-- reconnectTickState is the state effect of one reconnect tick: only on
heals does the supervisor re-run handshake and then dial with fresh wire
outcomes; stops and keeps leave the state as it is. -/
def reconnectTickState (p : SlackState) (writeFails : Bool)
    (hw : HandshakeWire) (dw : DialWire) : SlackState :=
  match reconnectTick p writeFails with
  | .heals => dial (handshake p hw) dw
  | _ => p

/-- lookupName is the read of the usernames map, modelled as an association
list whose most recent binding for a key comes first. -/
def lookupName : List (String × String) → String → Option String
  | [], _ => none
  | (k, v) :: rest, id => if k = id then some v else lookupName rest id

/-- UserWire is the outcome, as observed by providerSlack.getUserName, of the
users.info HTTP call: a transport error from http.Get, a JSON decode error on
the body, or a decoded body carrying the ok field and user.name. -/
inductive UserWire where
  | httpErr
  | decodeErr
  | decoded (ok : OkField) (name : String)
  deriving Repr, DecidableEq

/-- getUserName is providerSlack.getUserName as a function of the usernames
cache, the requested id and the wire outcome of the users.info call (unused on
a cache hit, since no call is made). The result is the returned name, the new
cache and whether an HTTP lookup was issued. The decoded ok field is read into
data but never examined by the source, so every decoded body caches
data.User.Name. -/
def getUserName (usernames : List (String × String)) (id : String)
    (wire : UserWire) : String × List (String × String) × Bool :=
  match lookupName usernames id with
  | some name => (name, usernames, false)
  | none =>
    match wire with
    | .httpErr => ("", usernames, true)
    | .decodeErr => ("", usernames, true)
    | .decoded _ name => (name, (id, name) :: usernames, true)

/-- WireFrame is one decoded inbound frame of the intake loop: type, channel,
user and text. -/
structure WireFrame where
  type : String
  channel : String
  userID : String
  text : String
  deriving Repr, DecidableEq

/-- intakeStep is the per-frame body of providerSlack.intakeLoop after a
successful decode: a frame whose type is not "message" is skipped, and a
message frame becomes a Message whose Direct field is true exactly when the
channel identifier starts with "D", the sender display name being resolved by
getUserName (abstracted here as the resolveName function). -/
def intakeStep (resolveName : String → String) (data : WireFrame) : Option Message :=
  if data.type ≠ "message" then none
  else
    some ⟨data.channel, data.userID, resolveName data.userID, "", "",
      data.text, startsWithGo data.channel ("D")⟩

/-- htmlEscapeChar is the escaping html/template applies, in HTML text
context, to one character of a value inserted by an action. -/
def htmlEscapeChar (c : Char) : List Char :=
  if c.toNat = 60 then ("&lt;").data
  else if c.toNat = 62 then ("&gt;").data
  else if c.toNat = 38 then ("&amp;").data
  else if c.toNat = 34 then ("&#34;").data
  else if c.toNat = 39 then ("&#39;").data
  else [c]

/-- replaceAllChars replaces every occurrence of the nonempty pattern pat by
rep, scanning left to right; the fuel argument bounds the recursion and is
instantiated with the input length, which suffices because every step consumes
at least one character. -/
def replaceAllChars (pat rep : List Char) : Nat → List Char → List Char
  | 0, l => l
  | _ + 1, [] => []
  | fuel + 1, c :: rest =>
    if pat.isPrefixOf (c :: rest) then
      rep ++ replaceAllChars pat rep fuel ((c :: rest).drop pat.length)
    else c :: replaceAllChars pat rep fuel rest

/-- execTemplate models parsing tmpl as an html/template and executing it with
the User field bound to user, for template texts whose only action is the User
field substitution: each occurrence of the action is replaced by the
HTML-escaped value and the surrounding text is copied verbatim. -/
def execTemplate (tmpl : String) (user : String) : String :=
  String.mk (replaceAllChars (("\x7b\x7b.User\x7d\x7d").data)
    (user.data.flatMap htmlEscapeChar) tmpl.data.length tmpl.data)

/-- decDigitsAux consumes a run of decimal digits, accumulating their value,
and returns the value together with the rest of the input. -/
def decDigitsAux : List Char → Nat → Nat × List Char
  | [], acc => (acc, [])
  | c :: rest, acc =>
    if c.isDigit then decDigitsAux rest (acc * 10 + (c.toNat - 48))
    else (acc, c :: rest)

/-- parseDecRef parses, after an ampersand, a decimal character-reference tail
of the shape hash, one or more digits, semicolon, returning the referenced
code point and the remaining input. -/
def parseDecRef (l : List Char) : Option (Nat × List Char) :=
  match l with
  | '#' :: rest =>
    match rest with
    | c :: _ =>
      if c.isDigit then
        match decDigitsAux rest 0 with
        | (n, ';' :: rest2) => some (n, rest2)
        | _ => none
      else none
    | [] => none
  | _ => none

/-- refChar converts a referenced code point to the character that
html.UnescapeString produces for it: the code point itself when it is a valid
scalar value, the replacement character otherwise. -/
def refChar (n : Nat) : Char :=
  if n.isValidChar then Char.ofNat n else Char.ofNat 0xFFFD

/-- unescChars is the character-level model of html.UnescapeString, restricted
to semicolon-terminated decimal character references; any other text,
including entities outside this restriction, is copied verbatim. The fuel
argument bounds the recursion and is instantiated with the input length, which
suffices because every step consumes at least one character. -/
def unescChars : Nat → List Char → List Char
  | 0, l => l
  | _ + 1, [] => []
  | fuel + 1, c :: rest =>
    if c.toNat = 38 then
      match parseDecRef rest with
      | some pr => refChar pr.1 :: unescChars fuel pr.2
      | none => c :: unescChars fuel rest
    else c :: unescChars fuel rest

/-- unescapeHTML is the model of html.UnescapeString used by the dispatch
loop. -/
def unescapeHTML (s : String) : String :=
  String.mk (unescChars s.length s.data)

/-- hexDigitChar is the lowercase hexadecimal digit for n below 16, as the
encoding/json encoder writes it. -/
def hexDigitChar (n : Nat) : Char :=
  if n < 10 then Char.ofNat (48 + n) else Char.ofNat (87 + n)

/-- jsonEscapeChar is the escaping encoding/json applies to one character of a
string value under the default HTML-escaping encoder: quote and backslash get
a backslash, newline, carriage return and tab use their short forms, the three
HTML-significant characters and other control characters use the six-character
form, as do the two line-separator code points. -/
def jsonEscapeChar (c : Char) : List Char :=
  if c.toNat = 34 then ("\\\"").data
  else if c.toNat = 92 then ("\\\\").data
  else if c.toNat = 10 then ("\\n").data
  else if c.toNat = 13 then ("\\r").data
  else if c.toNat = 9 then ("\\t").data
  else if c.toNat = 60 then ("\\u003c").data
  else if c.toNat = 62 then ("\\u003e").data
  else if c.toNat = 38 then ("\\u0026").data
  else if c.toNat < 32 then
    ("\\u00").data ++ [hexDigitChar (c.toNat / 16), hexDigitChar (c.toNat % 16)]
  else if c.toNat = 0x2028 then ("\\u2028").data
  else if c.toNat = 0x2029 then ("\\u2029").data
  else [c]

/-- jsonQuote is the encoding/json rendering of one string value, quotes
included. -/
def jsonQuote (s : String) : String :=
  "\"" ++ String.mk (s.data.flatMap jsonEscapeChar) ++ "\""

/-- encodeFrame is json.Marshal of the outbound frame struct with fields type,
user, channel and text and their lowercase field tags, the type field holding
"message". -/
def encodeFrame (selfID room text : String) : String :=
  "\x7b\"type\":\"message\",\"user\":" ++ jsonQuote selfID ++
    ",\"channel\":" ++ jsonQuote room ++ ",\"text\":" ++ jsonQuote text ++ "\x7d"

/-- charUtf8Size is the number of bytes of the UTF-8 encoding of one
character. -/
def charUtf8Size (c : Char) : Nat :=
  if c.toNat < 0x80 then 1
  else if c.toNat < 0x800 then 2
  else if c.toNat < 0x10000 then 3
  else 4

/-- utf8Len is the Go builtin len of a string: the number of bytes of its
UTF-8 encoding. -/
def utf8Len (s : String) : Nat :=
  s.data.foldl (fun n c => n + charUtf8Size c) 0

/-- goIsSpace is unicode.IsSpace: membership in the Unicode White_Space
property. -/
def goIsSpace (c : Char) : Bool :=
  (9 ≤ c.toNat && c.toNat ≤ 13) || c.toNat = 32 || c.toNat = 0x85 ||
    c.toNat = 0xA0 || c.toNat = 0x1680 ||
    (0x2000 ≤ c.toNat && c.toNat ≤ 0x200A) || c.toNat = 0x2028 ||
    c.toNat = 0x2029 || c.toNat = 0x202F || c.toNat = 0x205F ||
    c.toNat = 0x3000

/-- goTrimSpace is strings.TrimSpace: the input with leading and trailing
White_Space characters removed. -/
def goTrimSpace (s : String) : String :=
  String.mk (((s.data.dropWhile goIsSpace).reverse.dropWhile goIsSpace).reverse)

/-- dispatchStep is the body of providerSlack.dispatchLoop for one outbound
message: the User placeholder of the text is substituted with the mention
syntax for ToUserID, a message whose substituted text trims to empty is
dropped, otherwise the frame is built from the HTML-unescaped text and
marshalled, a frame longer than 16384 bytes is dropped, and otherwise the
frame is written to the socket (returned as some frame). -/
def dispatchStep (selfID : String) (msg : Message) : Option String :=
  let finalMsg := execTemplate msg.Message ("<@" ++ msg.ToUserID ++ ">")
  if goTrimSpace finalMsg = "" then none
  else
    let wsMsg := encodeFrame selfID msg.Room (unescapeHTML finalMsg)
    if 16 * 1024 < utf8Len wsMsg then none
    else some wsMsg

/-- helpLines is the closed form of the suffix the help fold appends after the
heading: for each rule, in registration order, one space (the fmt.Sprintln
operand separator), the rule's help text and a newline. -/
def helpLines (d : SelfData) : List RuleParser → String
  | [] => ""
  | r :: rs => " " ++ r.HelpMessage d ++ "\n" ++ helpLines d rs

/-- echoRule is a concrete rule used as a fixture: its help text is the one of
the spec's example and it answers any message by repeating it to the
sender. -/
def echoRule : RuleParser :=
  ⟨fun _ msg => .responses
      [⟨msg.Room, "", "", msg.FromUserID, msg.FromUserName, msg.Message, false⟩],
    fun _ => "echo: repeats your message"⟩

/-- panicRule is a concrete rule used as a fixture: its evaluation always
raises a panic. -/
def panicRule : RuleParser :=
  ⟨fun _ _ => .panics, fun _ => "boom: always panics"⟩

/-- benderSelf is the bot of the spec's example: name bender, the echo rule as
the only registered rule. -/
def benderSelf : Self :=
  ⟨"bender", [echoRule], ⟨[]⟩⟩

/-- benderPanicSelf is a bot fixture with a panicking rule registered between
two echo rules. -/
def benderPanicSelf : Self :=
  ⟨"bender", [echoRule, panicRule, echoRule], ⟨[]⟩⟩

/-- helpInbound is the inbound message of the spec's example. -/
def helpInbound : Message :=
  ⟨"C1", "U1", "alice", "", "", "bender help", false⟩

/-- chatInbound is a plain non-help inbound message fixture. -/
def chatInbound : Message :=
  ⟨"C1", "U1", "alice", "", "", "hello", false⟩

/-- helloOutbound is a plain outbound message fixture for the dispatch
loop. -/
def helloOutbound : Message :=
  ⟨"C1", "", "", "U1", "", "hello", false⟩

/-- blankRefOutbound is an outbound message fixture whose text is a decimal
character reference for the space character: not whitespace before
HTML-unescaping, whitespace-only after it. -/
def blankRefOutbound : Message :=
  ⟨"C1", "", "", "U1", "", "&#32;", false⟩

/-- preFailSlack is a provider state in which an earlier handshake attempt has
recorded a transport error and no socket exists. -/
def preFailSlack : SlackState :=
  ⟨some ("earlier transport error"), "", "", none, []⟩

/-- deadSlack is the provider state after a failed initial handshake and dial:
lastError set, no socket handle. -/
def deadSlack : SlackState :=
  ⟨some ("dial failed"), "", "", none, []⟩

/-- liveSlack is a connected provider state fixture. -/
def liveSlack : SlackState :=
  ⟨none, "wss://example", "S1", some 7, []⟩

/-- foldlSprintln2 unrolls the help fold of Self.Process: folding Sprintln2
over the rules from any accumulator appends one space, the help text and a
newline per rule. -/
theorem foldlSprintln2 (d : SelfData) (rules : List RuleParser) (acc : String) :
    rules.foldl (fun a r => Sprintln2 a (r.HelpMessage d)) acc
      = acc ++ helpLines d rules := by
  induction rules generalizing acc with
  | nil => simp [helpLines]
  | cons r rs ih =>
    rw [List.foldl_cons, ih]
    simp only [Sprintln2, helpLines]
    simp [String.append_assoc]

/-- helpTextEq is the closed form of the help text built by Self.Process. -/
theorem helpTextEq (s : Self) :
    helpText s = "available commands:\n" ++ helpLines s.data s.rules := by
  unfold helpText Sprintln1
  rw [foldlSprintln2]
  have hlit : ("available commands:" ++ "\n" : String) = "available commands:\n" := by
    decide
  rw [hlit]

/-- runRulesNoPanic evaluates the rule goroutine when no registered rule
panics on the message: the outputs are the concatenation of the per-rule
response slices in registration order, and no panic is recovered. -/
theorem runRulesNoPanic (d : SelfData) (m : Message) (rules : List RuleParser)
    (h : ∀ r ∈ rules, r.ParseMessage d m ≠ .panics) :
    runRules d m rules
      = ((rules.map fun r => (r.ParseMessage d m).toList).flatten, false) := by
  induction rules with
  | nil => simp [runRules]
  | cons r rs ih =>
    have hr := h r (List.mem_cons_self r rs)
    cases hparse : r.ParseMessage d m with
    | panics => exact absurd hparse hr
    | responses l =>
      have ih2 := ih (fun x hx => h x (List.mem_cons_of_mem r hx))
      simp [runRules, hparse, RuleOutcome.toList, ih2]

/-- runRulesPanic evaluates the rule goroutine when, after a panic-free
prefix, one rule panics: the recovered panic ends the goroutine, so only the
prefix contributes outputs and the recovered flag is set. -/
theorem runRulesPanic (d : SelfData) (m : Message) (pre : List RuleParser)
    (rp : RuleParser) (post : List RuleParser)
    (hpre : ∀ r ∈ pre, r.ParseMessage d m ≠ .panics)
    (hp : rp.ParseMessage d m = .panics) :
    runRules d m (pre ++ rp :: post)
      = ((pre.map fun r => (r.ParseMessage d m).toList).flatten, true) := by
  induction pre with
  | nil => simp [runRules, hp]
  | cons r rs ih =>
    have hr := hpre r (List.mem_cons_self r rs)
    cases hparse : r.ParseMessage d m with
    | panics => exact absurd hparse hr
    | responses l =>
      have ih2 := ih (fun x hx => hpre x (List.mem_cons_of_mem r hx))
      simp [runRules, hparse, RuleOutcome.toList, ih2]

/-- Claim C1, as stated, is false on the code: at the spec's own example (bot
name bender, one registered echo rule, inbound text "bender help") the
dispatcher produces one message whose text carries a space after the first
newline — fmt.Sprintln separates its operands with spaces — and not the exact
text "available commands:\necho: repeats your message\n" the claim gives. -/
theorem C1_counterexample :
    (Process1 benderSelf helpInbound).1.map (fun m => m.Message)
        = ["available commands:\n echo: repeats your message\n"] ∧
      ¬ ((Process1 benderSelf helpInbound).1.map (fun m => m.Message)
        = ["available commands:\necho: repeats your message\n"]) := by
  decide

/-- Claim C1 (amended): for every inbound message whose text starts with
"<botName> help", the dispatcher produces exactly one outbound message,
bypassing rule evaluation entirely, addressed to the sender's id and name in
the same room; its text is the line "available commands:" followed, for each
registered rule in registration order, by one space (the fmt.Sprintln operand
separator), the rule's help text and a newline. -/
theorem C1_theorem (s : Self) (m : Message)
    (h : startsWithGo m.Message (s.Name ++ " help") = true) :
    Process1 s m =
      ([⟨m.Room, "", "", m.FromUserID, m.FromUserName,
        "available commands:\n" ++ helpLines s.data s.rules, false⟩], false) := by
  unfold Process1
  rw [helpTextEq]
  simp [h]

/-- Witness for C1: the amended claim applied to the spec's example input. -/
theorem C1_witness :
    startsWithGo helpInbound.Message (benderSelf.Name ++ " help") = true ∧
      Process1 benderSelf helpInbound =
        ([⟨helpInbound.Room, "", "", helpInbound.FromUserID, helpInbound.FromUserName,
          "available commands:\n" ++ helpLines benderSelf.data benderSelf.rules, false⟩],
          false) :=
  ⟨by decide, C1_theorem benderSelf helpInbound (by decide)⟩

/-- Claim C2: for every non-help inbound message, the sequence of outbound
messages the dispatcher emits equals the concatenation, in rule-registration
order, of each rule's ParseMessage(identity, message) result, the order within
each rule's returned slice preserved (stated for evaluations in which every
rule returns a result, which the claim presupposes), and no panic is
recovered. -/
theorem C2_theorem (s : Self) (m : Message)
    (hnh : startsWithGo m.Message (s.Name ++ " help") = false)
    (hok : ∀ r ∈ s.rules, r.ParseMessage s.data m ≠ .panics) :
    Process1 s m
      = ((s.rules.map fun r => (r.ParseMessage s.data m).toList).flatten, false) := by
  unfold Process1
  simp [hnh, runRulesNoPanic s.data m s.rules hok]

/-- Witness for C2: the echo bot answers a plain message with the echo rule's
single response. -/
theorem C2_witness :
    Process1 benderSelf chatInbound
      = ((benderSelf.rules.map
          fun r => (r.ParseMessage benderSelf.data chatInbound).toList).flatten, false) :=
  C2_theorem benderSelf chatInbound (by decide)
    (by
      intro r hr
      simp [benderSelf] at hr
      subst hr
      decide)

/-- Claim C7: a panic raised during one rule's evaluation of an inbound
message is caught at that message's task boundary (the recovered flag, which
the source logs), the task ends there so the panicking rule and the rules not
yet run contribute no output while the panic-free prefix's outputs were
already forwarded, and the main receive loop processes every other inbound
message unaffected, each in its own task. -/
theorem C7_theorem (s : Self) (m : Message) (pre post : List RuleParser)
    (rp : RuleParser)
    (hnh : startsWithGo m.Message (s.Name ++ " help") = false)
    (hrules : s.rules = pre ++ rp :: post)
    (hpre : ∀ r ∈ pre, r.ParseMessage s.data m ≠ .panics)
    (hp : rp.ParseMessage s.data m = .panics) :
    Process1 s m = ((pre.map fun r => (r.ParseMessage s.data m).toList).flatten, true) ∧
      ∀ (ins1 ins2 : List Message),
        processLoop s (ins1 ++ m :: ins2)
          = processLoop s ins1 ++ Process1 s m :: processLoop s ins2 := by
  constructor
  · unfold Process1
    simp only [hnh, Bool.false_eq_true, if_false]
    rw [hrules]
    exact runRulesPanic s.data m pre rp post hpre hp
  · intro ins1 ins2
    simp [processLoop]

/-- Witness for C7: with a panicking rule between two echo rules, only the
first echo rule's response is emitted and the panic is recovered. -/
theorem C7_witness :
    Process1 benderPanicSelf chatInbound
      = (([echoRule].map
          fun r => (r.ParseMessage benderPanicSelf.data chatInbound).toList).flatten, true) :=
  (C7_theorem benderPanicSelf chatInbound [echoRule] [echoRule] panicRule
    (by decide) rfl
    (by
      intro r hr
      simp at hr
      subst hr
      decide)
    (by decide)).1

/-- Claim C10: each per-message task receives a by-value copy of the bot's
state and never assigns to it, so processing any inbound message leaves the
dispatcher's name, registered rule sequence and brain binding unchanged, the
outputs being those of Process1. -/
theorem C10_theorem (s : Self) (m : Message) :
    (Process1State s m).1.name = s.name ∧
      (Process1State s m).1.rules = s.rules ∧
      (Process1State s m).1.brain = s.brain ∧
      (Process1State s m).2 = Process1 s m :=
  ⟨rfl, rfl, rfl, rfl⟩

/-- Claim C8, as stated, is false on the code: the start-once guard is the
package-level processOnce, shared by all instances, so after instance 1 has
called Process, the first Process call of instance 2 is a no-op and instance
2's loop is never started, although the claim says the first call on an
instance starts that instance's loop. -/
theorem C8_counterexample :
    (ProcessCall (ProcessCall ⟨false, []⟩ 1) 2).started = [1] ∧
      ¬ ((2 : Nat) ∈ (ProcessCall (ProcessCall ⟨false, []⟩ 1) 2).started) := by
  decide

/-- Claim C8 (amended): Process starts the message-consumption loop at most
once per process, not per instance: the guard is the package-level sync.Once,
so the first Process call in the process starts the calling instance's loop,
and every subsequent call — on the same or on any other instance — is an
idempotent no-op. -/
theorem C8_theorem (st : ProcessState) (i : Nat) :
    (st.onceDone = false → ProcessCall st i = ⟨true, i :: st.started⟩) ∧
      (st.onceDone = true → ProcessCall st i = st) ∧
      ∀ j, ProcessCall (ProcessCall st i) j = ProcessCall st i := by
  cases st with
  | mk d l => cases d <;> simp [ProcessCall]

/-- Witness for C8: the first call starts the caller's loop, a call on an
already-used guard is a no-op. -/
theorem C8_witness :
    ProcessCall ⟨false, []⟩ 1 = ⟨true, [1]⟩ ∧
      ProcessCall ⟨true, [1]⟩ 2 = ⟨true, [1]⟩ :=
  ⟨(C8_theorem ⟨false, []⟩ 1).1 rfl, (C8_theorem ⟨true, [1]⟩ 2).2.1 rfl⟩

/-- Claim C3, as stated, is false on the code: the dispatch loop checks
emptiness-after-trimming on the substituted text before HTML-unescaping, not
after it as the claim's rendered text requires. For the outbound text built
from the decimal reference for the space character, the code writes a frame
although the claim's rendered text (substituted then HTML-unescaped) trims to
empty and the claim therefore requires the message to be dropped. -/
theorem C3_counterexample :
    (dispatchStep ("S1") blankRefOutbound).isSome = true ∧
      goTrimSpace (unescapeHTML (execTemplate blankRefOutbound.Message
        ("<@" ++ blankRefOutbound.ToUserID ++ ">"))) = "" := by
  decide

/-- Claim C3 (amended): for every outbound message, a wire frame is written to
the socket if and only if the substituted text — before HTML-unescaping — is
non-empty after trimming whitespace and the JSON-encoded frame is at most
16384 bytes; a message failing either condition is silently dropped, and a
written frame is the encoding of type "message", user selfIdentity, channel
room and text the HTML-unescaped substituted text. -/
theorem C3_theorem (selfID : String) (msg : Message) :
    ((dispatchStep selfID msg).isSome = true ↔
      (goTrimSpace (execTemplate msg.Message ("<@" ++ msg.ToUserID ++ ">")) ≠ "" ∧
        utf8Len (encodeFrame selfID msg.Room
            (unescapeHTML (execTemplate msg.Message ("<@" ++ msg.ToUserID ++ ">"))))
          ≤ 16 * 1024)) ∧
      ∀ ws, dispatchStep selfID msg = some ws →
        ws = encodeFrame selfID msg.Room
          (unescapeHTML (execTemplate msg.Message ("<@" ++ msg.ToUserID ++ ">"))) := by
  unfold dispatchStep
  by_cases h1 : goTrimSpace (execTemplate msg.Message ("<@" ++ msg.ToUserID ++ ">")) = ""
  · simp [h1]
  · by_cases h2 : 16 * 1024 < utf8Len (encodeFrame selfID msg.Room
        (unescapeHTML (execTemplate msg.Message ("<@" ++ msg.ToUserID ++ ">"))))
    · simp [h1, h2, Nat.not_le_of_lt h2]
    · simp [h1, h2, Nat.le_of_not_lt h2]

/-- Witness for C3: a plain short outbound text is written. -/
theorem C3_witness :
    (dispatchStep ("S1") helloOutbound).isSome = true :=
  (C3_theorem ("S1") helloOutbound).1.mpr (by decide)

/-- Claim C4: resolveDisplayName is cache-aside over the usernames map: a
cache hit returns the cached name with no lookup issued; on a miss, a decoded
response caches the fetched name and returns it, after which any call for the
same id is a hit issuing no lookup; a transport or decode failure returns the
empty string without caching, so any later call for the still-missing id
issues the lookup again. -/
theorem C4_theorem (c : List (String × String)) (id : String) (w : UserWire) :
    (∀ n, lookupName c id = some n → getUserName c id w = (n, c, false)) ∧
      (lookupName c id = none →
        (∀ ok nm, getUserName c id (.decoded ok nm) = (nm, (id, nm) :: c, true) ∧
          ∀ w2, getUserName ((id, nm) :: c) id w2 = (nm, (id, nm) :: c, false)) ∧
        (getUserName c id .httpErr = ("", c, true) ∧
          getUserName c id .decodeErr = ("", c, true)) ∧
        ∀ w2, (getUserName c id w2).2.2 = true) := by
  constructor
  · intro n hn
    simp [getUserName, hn]
  · intro hmiss
    refine ⟨?_, ⟨?_, ?_⟩, ?_⟩
    · intro ok nm
      constructor
      · simp [getUserName, hmiss]
      · intro w2
        simp [getUserName, lookupName]
    · simp [getUserName, hmiss]
    · simp [getUserName, hmiss]
    · intro w2
      cases w2 <;> simp [getUserName, hmiss]

/-- Witness for C4: a successful lookup for an uncached id caches the fetched
name, and the next call for that id is a cache hit issuing no lookup. -/
theorem C4_witness :
    getUserName [] ("U1") (.decoded (.boolVal true) ("alice"))
        = ("alice", [("U1", "alice")], true) ∧
      getUserName [("U1", "alice")] ("U1") .httpErr
        = ("alice", [("U1", "alice")], false) :=
  ⟨(((C4_theorem [] ("U1") (.decoded (.boolVal true) ("alice"))).2 rfl).1
      (.boolVal true) ("alice")).1,
    (((C4_theorem [] ("U1") (.decoded (.boolVal true) ("alice"))).2 rfl).1
      (.boolVal true) ("alice")).2 .httpErr⟩

/-- Claim C5 is broken by a slip in the code rather than by intent: in
providerSlack.handshake, the non-success "ok" branches assign p.err = err
where err is the http.Get error — provably nil on those paths, its non-nil
branch having returned — instead of a fresh error. This evaluation shows the
failing input: a handshake whose response body decodes with ok false (or with
a non-bool ok) leaves lastError nil and even clears a previously recorded
error, while the transport-error path does record a non-nil error. -/
theorem C5_theorem :
    (handshake preFailSlack (.decoded (.boolVal false) ("u") ("s"))).err = none ∧
      (handshake preFailSlack (.decoded .nonBool ("u") ("s"))).err = none ∧
      (handshake preFailSlack (.httpErr ("transport failure"))).err
        = some ("transport failure") := by
  decide

/-- Claim C6, as stated, is false on the code: when the initial handshake or
dial has failed and no socket handle exists, the reconnect supervisor does not
re-run handshake and dial — its first tick snapshots a nil handle, logs that
it cannot reconnect and breaks, leaving the state untouched. -/
theorem C6_counterexample :
    reconnectTick deadSlack true = .stops ∧
      reconnectTickState deadSlack true (.decoded (.boolVal true) ("u") ("s")) (.ok 1)
        = deadSlack ∧
      ReconnectAction.stops ≠ ReconnectAction.heals := by
  decide

/-- Claim C6 (amended): if the initial handshake or dial fails leaving no
socket handle, the reconnect supervisor stops at its first tick without
re-running handshake or dial (the connection object is permanently dead); it
re-runs handshake then dial only when a socket handle exists and the liveness
write on it fails. -/
theorem C6_theorem (p : SlackState) (b : Bool) :
    (p.wsConn = none →
      reconnectTick p b = .stops ∧ ∀ hw dw, reconnectTickState p b hw dw = p) ∧
      ∀ c, p.wsConn = some c → b = true →
        reconnectTick p b = .heals ∧
          ∀ hw dw, reconnectTickState p b hw dw = dial (handshake p hw) dw := by
  constructor
  · intro hnone
    constructor
    · simp [reconnectTick, hnone]
    · intro hw dw
      simp [reconnectTickState, reconnectTick, hnone]
  · intro c hsome hb
    subst hb
    constructor
    · simp [reconnectTick, hsome]
    · intro hw dw
      simp [reconnectTickState, reconnectTick, hsome]

/-- Witness for C6: the dead state stops; the live state with a failed
liveness write heals. -/
theorem C6_witness :
    reconnectTick deadSlack false = .stops ∧
      reconnectTick liveSlack true = .heals :=
  ⟨((C6_theorem deadSlack false).1 rfl).1,
    ((C6_theorem liveSlack true).2 7 rfl rfl).1⟩

/-- Claim C9: the Message value object carries the fields room, fromUserID,
fromUserName, toUserID, toUserName, text and direct; and for every accepted
inbound frame the intake loop constructs a Message whose direct field is true
exactly when the frame's channel identifier starts with the private
conversation prefix "D". -/
theorem C9_theorem :
    (∀ (room fid fn tid tn tx : String) (d : Bool),
      (⟨room, fid, fn, tid, tn, tx, d⟩ : Message).Room = room ∧
        (⟨room, fid, fn, tid, tn, tx, d⟩ : Message).FromUserID = fid ∧
        (⟨room, fid, fn, tid, tn, tx, d⟩ : Message).FromUserName = fn ∧
        (⟨room, fid, fn, tid, tn, tx, d⟩ : Message).ToUserID = tid ∧
        (⟨room, fid, fn, tid, tn, tx, d⟩ : Message).ToUserName = tn ∧
        (⟨room, fid, fn, tid, tn, tx, d⟩ : Message).Message = tx ∧
        (⟨room, fid, fn, tid, tn, tx, d⟩ : Message).Direct = d) ∧
      ∀ (g : String → String) (f : WireFrame) (m : Message),
        intakeStep g f = some m →
          (m.Direct = true ↔ startsWithGo f.channel ("D") = true) := by
  constructor
  · intro room fid fn tid tn tx d
    exact ⟨rfl, rfl, rfl, rfl, rfl, rfl, rfl⟩
  · intro g f m h
    unfold intakeStep at h
    by_cases ht : f.type ≠ "message"
    · simp [ht] at h
    · simp only [ht, if_false] at h
      cases h
      simp

/-- Witness for C9: a direct-channel frame yields a Message with direct set. -/
theorem C9_witness :
    ((⟨"D123", "U1", "alice", "", "", "hi", true⟩ : Message).Direct = true ↔
      startsWithGo ("D123") ("D") = true) :=
  C9_theorem.2 (fun _ => ("alice")) ⟨"message", "D123", "U1", "hi"⟩
    ⟨"D123", "U1", "alice", "", "", "hi", true⟩ (by decide)

end Gochatbot
